import Mathlib

/-!
Verification of `src/automation/python/sql_permissions_manager.py`.

Shallow embedding of the class `SQLPermissionsManager`. The database
session is modelled as a static oracle (`Session`): which server and
database principals exist, and which statements fail when executed
(`pyodbc.Error` raised by `cursor.execute` inside `_execute_sql`) or
when an existence check is executed directly on a cursor
(`checkFault`). Connecting to a server is modelled by `Env`.

Observable behaviour is threaded explicitly in `Effects`:
  - `audit`    : the list `self.audit_log` (timestamps omitted — wall
                 clock time is not modelled);
  - `logs`     : every `self.logger.<level>(msg)` call, in order;
  - `issued`   : every statement passed to `_execute_sql`, tagged with
                 a `StmtKind` saying which caller built it (pure
                 observation instrumentation: the tag and the two trace
                 fields never influence control flow);
  - `executed` : every statement that reaches `cursor.execute` on the
                 live session (existence checks always; mutating
                 statements only in live mode).

Exceptions that escape a function (`pyodbc.Error` from the existence
checks in `_create_login` / `_create_database_user`) are modelled with
`Except`: the error value carries the error message together with the
state accumulated before the raise, mirroring the fact that Python
side effects performed before an exception persist.

Out of scope, as in the specification: file IO (config loading, log
file, audit export), connection-string construction, argparse.
-/

namespace SqlPermissions

/-- Instrumentation tag: which call site built a statement. -/
inductive StmtKind
  | checkLogin
  | checkUser
  | createLoginStmt
  | createUserStmt
  | addRoleMemberStmt
  | grantStmt
  deriving DecidableEq, Repr

/-- Logging levels used by the script. -/
inductive LogLevel
  | debug
  | info
  | warning
  | errorLevel
  deriving DecidableEq, Repr

/-- One `self.logger.<level>(msg)` call. -/
structure LogEntry where
  level : LogLevel
  msg : String
  deriving DecidableEq, Repr

/-- One element of `self.audit_log` (source lines 144-149 and 155-161).
The `timestamp` field of the Python dict is omitted: wall-clock time is
outside the model. -/
structure AuditRecord where
  action : String
  sql : String
  status : String
  errorDetail : Option String
  deriving DecidableEq, Repr

/-- All externally observable traces of a run. -/
structure Effects where
  audit : List AuditRecord
  logs : List LogEntry
  issued : List (StmtKind × String)
  executed : List (StmtKind × String)
  deriving DecidableEq, Repr

def Effects.empty : Effects := ⟨[], [], [], []⟩

def Effects.log (e : Effects) (lv : LogLevel) (m : String) : Effects :=
  { e with logs := e.logs ++ [⟨lv, m⟩] }

def Effects.issue (e : Effects) (k : StmtKind) (s : String) : Effects :=
  { e with issued := e.issued ++ [(k, s)] }

def Effects.exec (e : Effects) (k : StmtKind) (s : String) : Effects :=
  { e with executed := e.executed ++ [(k, s)] }

def Effects.addAudit (e : Effects) (r : AuditRecord) : Effects :=
  { e with audit := e.audit ++ [r] }

/-- Static oracle describing one open database session:
which principals exist, and which statements fail.
`execFault sql = true` means `cursor.execute(sql)` (or the following
`commit`) raises `pyodbc.Error` inside `_execute_sql`;
`checkFault sql = true` means executing the existence-check query `sql`
directly on a cursor raises `pyodbc.Error`. -/
structure Session where
  serverPrincipals : List String
  dbPrincipals : String → List String
  execFault : String → Bool
  execErrMsg : String → String
  checkFault : String → Bool
  checkErrMsg : String → String

/-- Environment for a whole run: per server name, whether
`pyodbc.connect` succeeds, and the session it yields. -/
structure Env where
  connectOk : String → Bool
  connectErrMsg : String → String
  session : String → Session

/-- One element of a `grants` list in the configuration. -/
structure GrantSpec where
  permission : String
  object : Option String
  deriving DecidableEq, Repr

/-- One element of a `permissions` list in the configuration.
`user` and `login_type` are `none` when the JSON key is absent. -/
structure PermissionEntry where
  login : String
  user : Option String
  login_type : Option String
  roles : List String
  grants : List GrantSpec
  deriving DecidableEq, Repr

/-- One element of a `databases` list in the configuration. -/
structure DatabaseSpec where
  name : String
  permissions : List PermissionEntry
  deriving DecidableEq, Repr

/-- One element of the `servers` list. Authentication fields are not
modelled: they only feed connection-string construction, which is out
of scope. -/
structure ServerSpec where
  name : String
  databases : List DatabaseSpec
  deriving DecidableEq, Repr

/-- A validated configuration (`servers` key present). -/
structure Config where
  servers : List ServerSpec
  deriving DecidableEq, Repr

/-- Running state of `apply_permissions`: the two counters (lines
302-303) plus the observable traces. -/
structure RunState where
  totalSuccess : Nat
  totalFailed : Nat
  eff : Effects
  deriving DecidableEq, Repr

def RunState.log (st : RunState) (lv : LogLevel) (m : String) : RunState :=
  { st with eff := st.eff.log lv m }

/-! ## SQL statement construction (verbatim from the source f-strings) -/

/-- Line 177: existence check for a server principal. -/
def loginCheckSql (login : String) : String :=
  "SELECT name FROM sys.server_principals WHERE name = \x27" ++ login ++ "\x27"

/-- Line 187: windows login creation. -/
def createLoginSql (login : String) : String :=
  "CREATE LOGIN [" ++ login ++ "] FROM WINDOWS"

/-- Lines 216-219: existence check for a database principal
(triple-quoted f-string, whitespace reproduced). -/
def userCheckSql (database user : String) : String :=
  "\n        USE [" ++ database ++
    "];\n        SELECT name FROM sys.database_principals WHERE name = \x27" ++
    user ++ "\x27\n        "

/-- Lines 229-232: database user creation. -/
def createUserSql (database user login : String) : String :=
  "\n        USE [" ++ database ++ "];\n        CREATE USER [" ++ user ++
    "] FOR LOGIN [" ++ login ++ "]\n        "

/-- Lines 253-256: role membership statement. -/
def roleSql (database role user : String) : String :=
  "\n        USE [" ++ database ++ "];\n        ALTER ROLE [" ++ role ++
    "] ADD MEMBER [" ++ user ++ "]\n        "

/-- Python truthiness of the optional `object_name` (line 279
`if object_name:` — `None` and the empty string are falsy). -/
def objTruthy : Option String → Bool
  | some s => !(s == "")
  | none => false

/-- Lines 279-290: grant statement and its description. -/
def grantSqlDescr (database user permission : String)
    (objectName : Option String) : String × String :=
  if objTruthy objectName then
    let obj := objectName.getD ""
    ("\n            USE [" ++ database ++ "];\n            GRANT " ++ permission ++
       " ON " ++ obj ++ " TO [" ++ user ++ "]\n            ",
     "Grant " ++ permission ++ " on " ++ obj ++ " to \x27" ++ user ++
       "\x27 in \x27" ++ database ++ "\x27")
  else
    ("\n            USE [" ++ database ++ "];\n            GRANT " ++ permission ++
       " TO [" ++ user ++ "]\n            ",
     "Grant " ++ permission ++ " to \x27" ++ user ++ "\x27 in \x27" ++
       database ++ "\x27")

/-- Character-level model of the Python `str.split(sep)` method
(`String.splitOn` is not used because it does not reduce in the
kernel). Splitting never yields an empty list. -/
def splitOnChar (sep : Char) : List Char → List (List Char)
  | [] => [[]]
  | c :: cs =>
    match splitOnChar sep cs with
    | [] => [[c]]
    | h :: t => if c = sep then [] :: h :: t else (c :: h) :: t

/-- Character-level model of the Python `str.lower()` method. -/
def strToLower (s : String) : String := String.mk (s.data.map Char.toLower)

/-- The user-name derivation `login.split(\x27\x5c\x5c\x27)[-1]`
appearing verbatim at lines 213 and 323: the component after the last
backslash. -/
def deriveUser (login : String) : String :=
  String.mk ((splitOnChar '\x5c' login.data).getLastD [])

/-- Lines 212-213: resolution of the `user` parameter inside
`_create_database_user` (defaults to the derived name). -/
def cduResolvedUser (userArg : Option String) (login : String) : String :=
  userArg.getD (deriveUser login)

/-- Line 323: resolution of the effective user name inside
`apply_permissions` (`perm.get(\x27user\x27, ...)`). -/
def entryUser (p : PermissionEntry) : String :=
  p.user.getD (deriveUser p.login)

/-! ## The embedded source functions -/

/-- Lines 121-162, `_execute_sql`. Returns the boolean result and the
updated traces. In dry-run mode it returns before touching the session;
in live mode exactly one audit record is appended, with status
`success` or `failed`. -/
def execute_sql (dryRun : Bool) (sess : Session) (k : StmtKind)
    (sql descr : String) (eff : Effects) : Bool × Effects :=
  let eff := eff.issue k sql
  if dryRun then
    (true, (eff.log .info ("[DRY-RUN] Would execute: " ++ descr)).log .debug
      ("[DRY-RUN] SQL: " ++ sql))
  else
    let eff := eff.exec k sql
    if sess.execFault sql then
      (false, (((eff.log .errorLevel ("✗ Failed: " ++ descr)).log .errorLevel
          ("  Error: " ++ sess.execErrMsg sql)).addAudit
          ⟨descr, sql, "failed", some (sess.execErrMsg sql)⟩))
    else
      (true, ((eff.log .info ("✓ " ++ descr)).addAudit
          ⟨descr, sql, "success", none⟩))

/-- Lines 164-197, `_create_login`. The existence check executes
directly on a cursor (lines 178-179), outside `_execute_sql`; a raised
`pyodbc.Error` there propagates to the caller (`Except.error`, carrying
the traces accumulated so far). -/
def create_login (dryRun : Bool) (sess : Session) (login loginType : String)
    (eff : Effects) : Except String Bool × Effects :=
  let checkSql := loginCheckSql login
  let eff := eff.exec .checkLogin checkSql
  if sess.checkFault checkSql then
    (.error (sess.checkErrMsg checkSql), eff)
  else if sess.serverPrincipals.contains login then
    (.ok true, eff.log .debug ("Login already exists: " ++ login))
  else if strToLower loginType = "windows" then
    let r := execute_sql dryRun sess .createLoginStmt (createLoginSql login)
      ("Create login: " ++ login) eff
    (.ok r.1, r.2)
  else
    (.ok false, eff.log .warning ("SQL login creation not implemented: " ++ login))

/-- Lines 199-238, `_create_database_user`. Same structure as
`_create_login`: direct existence check (can raise), then creation
through `_execute_sql`. -/
def create_database_user (dryRun : Bool) (sess : Session)
    (database login : String) (userArg : Option String)
    (eff : Effects) : Except String Bool × Effects :=
  let user := cduResolvedUser userArg login
  let checkSql := userCheckSql database user
  let eff := eff.exec .checkUser checkSql
  if sess.checkFault checkSql then
    (.error (sess.checkErrMsg checkSql), eff)
  else if (sess.dbPrincipals database).contains user then
    (.ok true, eff.log .debug ("User already exists in " ++ database ++ ": " ++ user))
  else
    let r := execute_sql dryRun sess .createUserStmt (createUserSql database user login)
      ("Create user \x27" ++ user ++ "\x27 in database \x27" ++ database ++ "\x27") eff
    (.ok r.1, r.2)

/-- Lines 240-262, `_add_role_member`: one statement straight through
the executor, never raises. -/
def add_role_member (dryRun : Bool) (sess : Session)
    (database user role : String) (eff : Effects) : Bool × Effects :=
  execute_sql dryRun sess .addRoleMemberStmt (roleSql database role user)
    ("Add \x27" ++ user ++ "\x27 to role \x27" ++ role ++ "\x27 in database \x27" ++
      database ++ "\x27") eff

/-- Lines 264-292, `_grant_permission`: one statement straight through
the executor, never raises. -/
def grant_permission (dryRun : Bool) (sess : Session)
    (database user permission : String) (objectName : Option String)
    (eff : Effects) : Bool × Effects :=
  let sd := grantSqlDescr database user permission objectName
  execute_sql dryRun sess .grantStmt sd.1 sd.2 eff

/-- Lines 330-334: the `for role in perm.get(\x27roles\x27, [])` loop. -/
def applyRoles (dryRun : Bool) (sess : Session) (database user : String) :
    List String → RunState → RunState
  | [], st => st
  | role :: rest, st =>
    let r := add_role_member dryRun sess database user role st.eff
    let st :=
      if r.1 then { st with totalSuccess := st.totalSuccess + 1, eff := r.2 }
      else { st with totalFailed := st.totalFailed + 1, eff := r.2 }
    applyRoles dryRun sess database user rest st

/-- Lines 337-345: the `for grant in perm.get(\x27grants\x27, [])` loop. -/
def applyGrants (dryRun : Bool) (sess : Session) (database user : String) :
    List GrantSpec → RunState → RunState
  | [], st => st
  | g :: rest, st =>
    let r := grant_permission dryRun sess database user g.permission g.object st.eff
    let st :=
      if r.1 then { st with totalSuccess := st.totalSuccess + 1, eff := r.2 }
      else { st with totalFailed := st.totalFailed + 1, eff := r.2 }
    applyGrants dryRun sess database user rest st

/-- Lines 321-345: processing of one permission entry. An uncaught
`pyodbc.Error` from one of the existence checks becomes `Except.error`
with the state at raise time. -/
def processEntry (dryRun : Bool) (sess : Session) (database : String)
    (p : PermissionEntry) (st : RunState) : Except (String × RunState) RunState :=
  let user := entryUser p
  let cl := create_login dryRun sess p.login (p.login_type.getD "windows") st.eff
  match cl.1 with
  | .error e => .error (e, { st with eff := cl.2 })
  | .ok false => .ok { st with eff := cl.2 }
  | .ok true =>
    let cu := create_database_user dryRun sess database p.login (some user) cl.2
    match cu.1 with
    | .error e => .error (e, { st with eff := cu.2 })
    | .ok false => .ok { st with eff := cu.2 }
    | .ok true =>
      let st1 := applyRoles dryRun sess database user p.roles { st with eff := cu.2 }
      .ok (applyGrants dryRun sess database user p.grants st1)

/-- Line 321: the `for perm in db_config.get(\x27permissions\x27, [])`
loop, with exception propagation. -/
def processEntries (dryRun : Bool) (sess : Session) (database : String) :
    List PermissionEntry → RunState → Except (String × RunState) RunState
  | [], st => .ok st
  | p :: rest, st =>
    match processEntry dryRun sess database p st with
    | .error e => .error e
    | .ok st => processEntries dryRun sess database rest st

/-- Lines 316-318: one database (log line, then its entries). -/
def processDatabase (dryRun : Bool) (sess : Session) (db : DatabaseSpec)
    (st : RunState) : Except (String × RunState) RunState :=
  processEntries dryRun sess db.name db.permissions
    (st.log .info ("\n  Database: " ++ db.name))

/-- Line 316: the `for db_config in server_config.get(\x27databases\x27, [])`
loop, with exception propagation. -/
def processDatabases (dryRun : Bool) (sess : Session) :
    List DatabaseSpec → RunState → Except (String × RunState) RunState
  | [], st => .ok st
  | db :: rest, st =>
    match processDatabase dryRun sess db st with
    | .error e => .error e
    | .ok st => processDatabases dryRun sess rest st

/-- Lines 305-353: one server. The `try` block covers connect,
databases and close; any `pyodbc.Error` lands in the `except` handler
(lines 350-353), which logs and increments `total_failed` once, then
the loop continues. -/
def processServer (dryRun : Bool) (env : Env) (sv : ServerSpec)
    (st : RunState) : RunState :=
  let st := st.log .info ("\n--- Processing Server: " ++ sv.name ++ " ---")
  if env.connectOk sv.name then
    let sess := env.session sv.name
    let st := st.log .info ("✓ Connected to " ++ sv.name)
    match processDatabases dryRun sess sv.databases st with
    | .ok st =>
      st.log .info ("✓ Disconnected from " ++ sv.name)
    | .error (e, st) =>
      let st := st.log .errorLevel ("✗ Failed to connect to " ++ sv.name ++ ": " ++ e)
      { st with totalFailed := st.totalFailed + 1 }
  else
    let st := st.log .errorLevel ("✗ Failed to connect to " ++ sv.name ++ ": " ++
      env.connectErrMsg sv.name)
    { st with totalFailed := st.totalFailed + 1 }

/-- Line 305: the `for server_config in self.config[\x27servers\x27]` loop. -/
def applyServers (dryRun : Bool) (env : Env) :
    List ServerSpec → RunState → RunState
  | [], st => st
  | sv :: rest, st => applyServers dryRun env rest (processServer dryRun env sv st)

/-- A line of 80 equal signs (source `"=" * 80`). -/
def eqLine : String := String.mk (List.replicate 80 '=')

/-- Lines 294-367, `apply_permissions`: header logs, the server loop,
summary logs. The audit-file export (`_export_audit_log`, file IO) is
outside the model. -/
def apply_permissions (dryRun : Bool) (env : Env) (cfg : Config) : RunState :=
  let st : RunState := ⟨0, 0, Effects.empty⟩
  let st := st.log .info eqLine
  let st := st.log .info "SQL Server Permissions Manager"
  let st := st.log .info eqLine
  let st := st.log .info ("Mode: " ++
    (if dryRun then "DRY-RUN (Preview Only)" else "LIVE (Applying Changes)"))
  let st := st.log .info ""
  let st := applyServers dryRun env cfg.servers st
  let st := st.log .info ("\n" ++ eqLine)
  let st := st.log .info "SUMMARY"
  let st := st.log .info eqLine
  let st := st.log .info ("Successful operations: " ++ toString st.totalSuccess)
  let st := st.log .info ("Failed operations: " ++ toString st.totalFailed)
  let st :=
    if dryRun then
      (st.log .info "\n⚠ DRY-RUN MODE: No changes were applied").log .info
        "Run with --apply flag to apply changes"
    else st
  st

/-- Lines 385-457, `main`: builds the manager (`dry_run = not
args.apply`), calls `apply_permissions`, and returns without ever
inspecting the counters, so the process exits 0 whenever the run
completes (config-load failures, which `sys.exit(1)` before any server
work, are outside the model). -/
def mainExitCode (applyFlag : Bool) (env : Env) (cfg : Config) : Nat :=
  let _run := apply_permissions (!applyFlag) env cfg
  0

/-! ## Derived run analysis

Closed-form descriptions of the outcome of each processing level,
computed from the same static `Session` oracle. These are analysis
definitions used to state theorems about the embedded functions; they
are proved equal to what the embedded functions do. -/

/-- State carried out of an `Except`-shaped step (the Python state at
normal return, or at the moment an exception was raised). -/
def exceptState : Except (String × RunState) RunState → RunState
  | .ok st => st
  | .error (_, st) => st

/-- Whether an `Except`-shaped step raised. -/
def exceptAborts : Except (String × RunState) RunState → Bool
  | .ok _ => false
  | .error _ => true

/-- Whether a statement in the `issued` trace is a role-membership or
grant statement. -/
def isRoleGrant : StmtKind × String → Bool
  | (StmtKind.addRoleMemberStmt, _) => true
  | (StmtKind.grantStmt, _) => true
  | _ => false

/-- Number of role-membership and grant statements in a trace. -/
def rgCount (l : List (StmtKind × String)) : Nat := l.countP isRoleGrant

/-- Whether the login existence check of an entry raises. -/
def loginCheckRaises (sess : Session) (p : PermissionEntry) : Bool :=
  sess.checkFault (loginCheckSql p.login)

/-- The boolean `_create_login` returns for an entry when its check
does not raise. -/
def loginEnsured (dryRun : Bool) (sess : Session) (p : PermissionEntry) : Bool :=
  if sess.serverPrincipals.contains p.login then true
  else if strToLower (p.login_type.getD "windows") = "windows" then
    (if dryRun then true else !sess.execFault (createLoginSql p.login))
  else false

/-- Whether the database-user existence check of an entry raises. -/
def userCheckRaises (sess : Session) (database : String) (p : PermissionEntry) : Bool :=
  sess.checkFault (userCheckSql database (entryUser p))

/-- The boolean `_create_database_user` returns for an entry when its
check does not raise. -/
def userEnsured (dryRun : Bool) (sess : Session) (database : String)
    (p : PermissionEntry) : Bool :=
  if (sess.dbPrincipals database).contains (entryUser p) then true
  else if dryRun then true
  else !sess.execFault (createUserSql database (entryUser p) p.login)

/-- Whether processing an entry raises an uncaught `pyodbc.Error`
(from one of the two existence checks). -/
def entryRaises (dryRun : Bool) (sess : Session) (database : String)
    (p : PermissionEntry) : Bool :=
  loginCheckRaises sess p ||
    (loginEnsured dryRun sess p && userCheckRaises sess database p)

/-- Result of one role-membership statement for an entry. -/
def roleOk (dryRun : Bool) (sess : Session) (database user role : String) : Bool :=
  if dryRun then true else !sess.execFault (roleSql database role user)

/-- Result of one grant statement for an entry. -/
def grantOk (dryRun : Bool) (sess : Session) (database user : String)
    (g : GrantSpec) : Bool :=
  if dryRun then true
  else !sess.execFault (grantSqlDescr database user g.permission g.object).1

/-- Number of successful role/grant outcomes contributed by one entry. -/
def entrySucc (dryRun : Bool) (sess : Session) (database : String)
    (p : PermissionEntry) : Nat :=
  if entryRaises dryRun sess database p then 0
  else if loginEnsured dryRun sess p && userEnsured dryRun sess database p then
    p.roles.countP (fun r => roleOk dryRun sess database (entryUser p) r) +
      p.grants.countP (fun g => grantOk dryRun sess database (entryUser p) g)
  else 0

/-- Number of failed role/grant outcomes contributed by one entry. -/
def entryFail (dryRun : Bool) (sess : Session) (database : String)
    (p : PermissionEntry) : Nat :=
  if entryRaises dryRun sess database p then 0
  else if loginEnsured dryRun sess p && userEnsured dryRun sess database p then
    p.roles.countP (fun r => !roleOk dryRun sess database (entryUser p) r) +
      p.grants.countP (fun g => !grantOk dryRun sess database (entryUser p) g)
  else 0

/-- Number of role/grant statements issued through the executor by one
entry. -/
def entryRG (dryRun : Bool) (sess : Session) (database : String)
    (p : PermissionEntry) : Nat :=
  if entryRaises dryRun sess database p then 0
  else if loginEnsured dryRun sess p && userEnsured dryRun sess database p then
    p.roles.length + p.grants.length
  else 0

/-- Successes contributed by a permission list (processing stops at
the first raising entry). -/
def entriesSucc (dryRun : Bool) (sess : Session) (database : String) :
    List PermissionEntry → Nat
  | [] => 0
  | p :: rest =>
    if entryRaises dryRun sess database p then 0
    else entrySucc dryRun sess database p + entriesSucc dryRun sess database rest

/-- Failures contributed by a permission list. -/
def entriesFail (dryRun : Bool) (sess : Session) (database : String) :
    List PermissionEntry → Nat
  | [] => 0
  | p :: rest =>
    if entryRaises dryRun sess database p then 0
    else entryFail dryRun sess database p + entriesFail dryRun sess database rest

/-- Role/grant statements issued by a permission list. -/
def entriesRG (dryRun : Bool) (sess : Session) (database : String) :
    List PermissionEntry → Nat
  | [] => 0
  | p :: rest =>
    if entryRaises dryRun sess database p then 0
    else entryRG dryRun sess database p + entriesRG dryRun sess database rest

/-- Whether some entry of a database raises. -/
def dbRaises (dryRun : Bool) (sess : Session) (db : DatabaseSpec) : Bool :=
  db.permissions.any (fun p => entryRaises dryRun sess db.name p)

/-- Successes contributed by a database list (processing stops inside
the first raising database). -/
def databasesSucc (dryRun : Bool) (sess : Session) : List DatabaseSpec → Nat
  | [] => 0
  | db :: rest =>
    entriesSucc dryRun sess db.name db.permissions +
      (if dbRaises dryRun sess db then 0 else databasesSucc dryRun sess rest)

/-- Failures contributed by a database list. -/
def databasesFail (dryRun : Bool) (sess : Session) : List DatabaseSpec → Nat
  | [] => 0
  | db :: rest =>
    entriesFail dryRun sess db.name db.permissions +
      (if dbRaises dryRun sess db then 0 else databasesFail dryRun sess rest)

/-- Role/grant statements issued by a database list. -/
def databasesRG (dryRun : Bool) (sess : Session) : List DatabaseSpec → Nat
  | [] => 0
  | db :: rest =>
    entriesRG dryRun sess db.name db.permissions +
      (if dbRaises dryRun sess db then 0 else databasesRG dryRun sess rest)

/-- Whether a server run ends in the per-server `except` handler:
connection failure, or an uncaught check error somewhere below. -/
def serverAborts (dryRun : Bool) (env : Env) (sv : ServerSpec) : Bool :=
  !env.connectOk sv.name ||
    sv.databases.any (fun db => dbRaises dryRun (env.session sv.name) db)

/-- Successes contributed by one server. -/
def serverSucc (dryRun : Bool) (env : Env) (sv : ServerSpec) : Nat :=
  if env.connectOk sv.name then
    databasesSucc dryRun (env.session sv.name) sv.databases
  else 0

/-- Failures contributed by one server (the handler adds one when the
server aborts). -/
def serverFail (dryRun : Bool) (env : Env) (sv : ServerSpec) : Nat :=
  if env.connectOk sv.name then
    databasesFail dryRun (env.session sv.name) sv.databases +
      (if sv.databases.any (fun db => dbRaises dryRun (env.session sv.name) db)
       then 1 else 0)
  else 1

/-- Role/grant statements issued by one server. -/
def serverRG (dryRun : Bool) (env : Env) (sv : ServerSpec) : Nat :=
  if env.connectOk sv.name then
    databasesRG dryRun (env.session sv.name) sv.databases
  else 0

/-- Total successes of a run. -/
def runSucc (dryRun : Bool) (env : Env) (servers : List ServerSpec) : Nat :=
  (servers.map (serverSucc dryRun env)).sum

/-- Total failures of a run. -/
def runFail (dryRun : Bool) (env : Env) (servers : List ServerSpec) : Nat :=
  (servers.map (serverFail dryRun env)).sum

/-- Total role/grant statements issued by a run. -/
def runRG (dryRun : Bool) (env : Env) (servers : List ServerSpec) : Nat :=
  (servers.map (serverRG dryRun env)).sum

/-- Number of servers whose processing ends in the `except` handler. -/
def runAborts (dryRun : Bool) (env : Env) (servers : List ServerSpec) : Nat :=
  servers.countP (fun sv => serverAborts dryRun env sv)

/-! ## Basic lemmas about the executor -/

theorem execute_sql_fst (dryRun : Bool) (sess : Session) (k : StmtKind)
    (sql descr : String) (eff : Effects) :
    (execute_sql dryRun sess k sql descr eff).1 =
      (if dryRun then true else !sess.execFault sql) := by
  by_cases hd : dryRun <;> by_cases hf : sess.execFault sql <;>
    simp [execute_sql, hd, hf]

theorem execute_sql_issued (dryRun : Bool) (sess : Session) (k : StmtKind)
    (sql descr : String) (eff : Effects) :
    (execute_sql dryRun sess k sql descr eff).2.issued =
      eff.issued ++ [(k, sql)] := by
  by_cases hd : dryRun <;> by_cases hf : sess.execFault sql <;>
    simp [execute_sql, Effects.issue, Effects.exec, Effects.log, Effects.addAudit, hd, hf]

theorem execute_sql_executed (dryRun : Bool) (sess : Session) (k : StmtKind)
    (sql descr : String) (eff : Effects) :
    (execute_sql dryRun sess k sql descr eff).2.executed =
      eff.executed ++ (if dryRun then [] else [(k, sql)]) := by
  by_cases hd : dryRun <;> by_cases hf : sess.execFault sql <;>
    simp [execute_sql, Effects.issue, Effects.exec, Effects.log, Effects.addAudit, hd, hf]

theorem execute_sql_audit (dryRun : Bool) (sess : Session) (k : StmtKind)
    (sql descr : String) (eff : Effects) :
    (execute_sql dryRun sess k sql descr eff).2.audit =
      eff.audit ++
        (if dryRun then []
         else if sess.execFault sql then
           [⟨descr, sql, "failed", some (sess.execErrMsg sql)⟩]
         else [⟨descr, sql, "success", none⟩]) := by
  by_cases hd : dryRun <;> by_cases hf : sess.execFault sql <;>
    simp [execute_sql, Effects.issue, Effects.exec, Effects.log, Effects.addAudit, hd, hf]

@[simp] theorem isRoleGrant_checkLogin (s : String) :
    isRoleGrant (StmtKind.checkLogin, s) = false := rfl

@[simp] theorem isRoleGrant_checkUser (s : String) :
    isRoleGrant (StmtKind.checkUser, s) = false := rfl

@[simp] theorem isRoleGrant_createLogin (s : String) :
    isRoleGrant (StmtKind.createLoginStmt, s) = false := rfl

@[simp] theorem isRoleGrant_createUser (s : String) :
    isRoleGrant (StmtKind.createUserStmt, s) = false := rfl

@[simp] theorem isRoleGrant_role (s : String) :
    isRoleGrant (StmtKind.addRoleMemberStmt, s) = true := rfl

@[simp] theorem isRoleGrant_grant (s : String) :
    isRoleGrant (StmtKind.grantStmt, s) = true := rfl

theorem rgCount_append (a b : List (StmtKind × String)) :
    rgCount (a ++ b) = rgCount a + rgCount b := by
  simp [rgCount, List.countP_append]

/-! ## Lemmas about the principal reconciler and grant applier -/

theorem create_login_fst (dryRun : Bool) (sess : Session) (login t : String)
    (eff : Effects) :
    (create_login dryRun sess login t eff).1 =
      (if sess.checkFault (loginCheckSql login) then
        Except.error (sess.checkErrMsg (loginCheckSql login))
       else Except.ok
        (if sess.serverPrincipals.contains login then true
         else if strToLower t = "windows" then
           (if dryRun then true else !sess.execFault (createLoginSql login))
         else false)) := by
  by_cases h1 : sess.checkFault (loginCheckSql login) <;>
    by_cases h2 : login ∈ sess.serverPrincipals <;>
    by_cases h3 : strToLower t = "windows" <;>
    simp [create_login, execute_sql_fst, h1, h2, h3]

theorem create_login_rgIssued (dryRun : Bool) (sess : Session) (login t : String)
    (eff : Effects) :
    rgCount (create_login dryRun sess login t eff).2.issued = rgCount eff.issued := by
  by_cases h1 : sess.checkFault (loginCheckSql login) <;>
    by_cases h2 : login ∈ sess.serverPrincipals <;>
    by_cases h3 : strToLower t = "windows" <;>
    simp [create_login, Effects.exec, Effects.log, execute_sql_issued,
      rgCount_append, rgCount, h1, h2, h3]

theorem create_database_user_fst (dryRun : Bool) (sess : Session)
    (database login : String) (userArg : Option String) (eff : Effects) :
    (create_database_user dryRun sess database login userArg eff).1 =
      (if sess.checkFault (userCheckSql database (cduResolvedUser userArg login)) then
        Except.error (sess.checkErrMsg (userCheckSql database (cduResolvedUser userArg login)))
       else Except.ok
        (if (sess.dbPrincipals database).contains (cduResolvedUser userArg login) then true
         else if dryRun then true
         else !sess.execFault
           (createUserSql database (cduResolvedUser userArg login) login))) := by
  by_cases h1 : sess.checkFault (userCheckSql database (cduResolvedUser userArg login)) <;>
    by_cases h2 : cduResolvedUser userArg login ∈ sess.dbPrincipals database <;>
    by_cases hd : dryRun <;>
    simp [create_database_user, execute_sql_fst, h1, h2, hd]

theorem create_database_user_rgIssued (dryRun : Bool) (sess : Session)
    (database login : String) (userArg : Option String) (eff : Effects) :
    rgCount (create_database_user dryRun sess database login userArg eff).2.issued =
      rgCount eff.issued := by
  by_cases h1 : sess.checkFault (userCheckSql database (cduResolvedUser userArg login)) <;>
    by_cases h2 : cduResolvedUser userArg login ∈ sess.dbPrincipals database <;>
    simp [create_database_user, Effects.exec, Effects.log, execute_sql_issued,
      rgCount_append, rgCount, h1, h2]

theorem add_role_member_fst (dryRun : Bool) (sess : Session)
    (database user role : String) (eff : Effects) :
    (add_role_member dryRun sess database user role eff).1 =
      roleOk dryRun sess database user role := by
  simp [add_role_member, execute_sql_fst, roleOk]

theorem add_role_member_rgIssued (dryRun : Bool) (sess : Session)
    (database user role : String) (eff : Effects) :
    rgCount (add_role_member dryRun sess database user role eff).2.issued =
      rgCount eff.issued + 1 := by
  simp [add_role_member, execute_sql_issued, rgCount_append, rgCount]

theorem grant_permission_fst (dryRun : Bool) (sess : Session)
    (database user : String) (g : GrantSpec) (eff : Effects) :
    (grant_permission dryRun sess database user g.permission g.object eff).1 =
      grantOk dryRun sess database user g := by
  simp [grant_permission, execute_sql_fst, grantOk]

theorem grant_permission_rgIssued (dryRun : Bool) (sess : Session)
    (database user : String) (g : GrantSpec) (eff : Effects) :
    rgCount (grant_permission dryRun sess database user g.permission g.object eff).2.issued =
      rgCount eff.issued + 1 := by
  simp [grant_permission, execute_sql_issued, rgCount_append, rgCount]

/-! ## Characterization of the role and grant loops -/

theorem applyRoles_spec (dryRun : Bool) (sess : Session) (database user : String)
    (roles : List String) (st : RunState) :
    (applyRoles dryRun sess database user roles st).totalSuccess =
      st.totalSuccess + roles.countP (fun r => roleOk dryRun sess database user r)
  ∧ (applyRoles dryRun sess database user roles st).totalFailed =
      st.totalFailed + roles.countP (fun r => !roleOk dryRun sess database user r)
  ∧ rgCount (applyRoles dryRun sess database user roles st).eff.issued =
      rgCount st.eff.issued + roles.length := by
  induction roles generalizing st with
  | nil => simp [applyRoles]
  | cons role rest ih =>
    by_cases hr : roleOk dryRun sess database user role <;>
    · obtain ⟨ih1, ih2, ih3⟩ := ih
        (if (add_role_member dryRun sess database user role st.eff).1 then
          { st with totalSuccess := st.totalSuccess + 1,
                    eff := (add_role_member dryRun sess database user role st.eff).2 }
         else
          { st with totalFailed := st.totalFailed + 1,
                    eff := (add_role_member dryRun sess database user role st.eff).2 })
      simp only [applyRoles]
      rw [ih1, ih2, ih3]
      simp [add_role_member_fst, add_role_member_rgIssued, List.countP_cons, hr]
      omega

theorem applyGrants_spec (dryRun : Bool) (sess : Session) (database user : String)
    (grants : List GrantSpec) (st : RunState) :
    (applyGrants dryRun sess database user grants st).totalSuccess =
      st.totalSuccess + grants.countP (fun g => grantOk dryRun sess database user g)
  ∧ (applyGrants dryRun sess database user grants st).totalFailed =
      st.totalFailed + grants.countP (fun g => !grantOk dryRun sess database user g)
  ∧ rgCount (applyGrants dryRun sess database user grants st).eff.issued =
      rgCount st.eff.issued + grants.length := by
  induction grants generalizing st with
  | nil => simp [applyGrants]
  | cons g rest ih =>
    by_cases hg : grantOk dryRun sess database user g <;>
    · obtain ⟨ih1, ih2, ih3⟩ := ih
        (if (grant_permission dryRun sess database user g.permission g.object st.eff).1 then
          { st with totalSuccess := st.totalSuccess + 1,
                    eff := (grant_permission dryRun sess database user g.permission g.object st.eff).2 }
         else
          { st with totalFailed := st.totalFailed + 1,
                    eff := (grant_permission dryRun sess database user g.permission g.object st.eff).2 })
      simp only [applyGrants]
      rw [ih1, ih2, ih3]
      simp [grant_permission_fst, grant_permission_rgIssued, List.countP_cons, hg]
      omega

@[simp] theorem exceptState_ok (st : RunState) :
    exceptState (Except.ok st) = st := rfl

@[simp] theorem exceptState_error (e : String) (st : RunState) :
    exceptState (Except.error (e, st)) = st := rfl

@[simp] theorem exceptAborts_ok (st : RunState) :
    exceptAborts (Except.ok st) = false := rfl

@[simp] theorem exceptAborts_error (es : String × RunState) :
    exceptAborts (Except.error es) = true := rfl

@[simp] theorem Effects.empty_audit : Effects.empty.audit = [] := rfl

@[simp] theorem Effects.empty_logs : Effects.empty.logs = [] := rfl

@[simp] theorem Effects.empty_issued : Effects.empty.issued = [] := rfl

@[simp] theorem Effects.empty_executed : Effects.empty.executed = [] := rfl

@[simp] theorem rgCount_nil : rgCount [] = 0 := rfl

@[simp] theorem RunState.log_totalSuccess (st : RunState) (lv : LogLevel) (m : String) :
    (st.log lv m).totalSuccess = st.totalSuccess := rfl

@[simp] theorem RunState.log_totalFailed (st : RunState) (lv : LogLevel) (m : String) :
    (st.log lv m).totalFailed = st.totalFailed := rfl

@[simp] theorem RunState.log_eff_audit (st : RunState) (lv : LogLevel) (m : String) :
    (st.log lv m).eff.audit = st.eff.audit := rfl

@[simp] theorem RunState.log_eff_issued (st : RunState) (lv : LogLevel) (m : String) :
    (st.log lv m).eff.issued = st.eff.issued := rfl

@[simp] theorem RunState.log_eff_executed (st : RunState) (lv : LogLevel) (m : String) :
    (st.log lv m).eff.executed = st.eff.executed := rfl

@[simp] theorem Effects.log_audit (e : Effects) (lv : LogLevel) (m : String) :
    (e.log lv m).audit = e.audit := rfl

@[simp] theorem Effects.log_issued (e : Effects) (lv : LogLevel) (m : String) :
    (e.log lv m).issued = e.issued := rfl

@[simp] theorem Effects.log_executed (e : Effects) (lv : LogLevel) (m : String) :
    (e.log lv m).executed = e.executed := rfl

@[simp] theorem Effects.exec_audit_field (e : Effects) (k : StmtKind) (s : String) :
    (e.exec k s).audit = e.audit := rfl

@[simp] theorem Effects.exec_issued_field (e : Effects) (k : StmtKind) (s : String) :
    (e.exec k s).issued = e.issued := rfl

@[simp] theorem Effects.exec_logs_field (e : Effects) (k : StmtKind) (s : String) :
    (e.exec k s).logs = e.logs := rfl

@[simp] theorem Effects.exec_executed_field (e : Effects) (k : StmtKind) (s : String) :
    (e.exec k s).executed = e.executed ++ [(k, s)] := rfl

/-- Entry-shaped restatement of `create_login_fst`. -/
theorem create_login_fst_entry (dryRun : Bool) (sess : Session)
    (p : PermissionEntry) (eff : Effects) :
    (create_login dryRun sess p.login (p.login_type.getD "windows") eff).1 =
      (if loginCheckRaises sess p then
        Except.error (sess.checkErrMsg (loginCheckSql p.login))
       else Except.ok (loginEnsured dryRun sess p)) := by
  rw [create_login_fst]
  simp [loginCheckRaises, loginEnsured]

/-- Entry-shaped restatement of `create_database_user_fst` for the call
made by `apply_permissions` (explicit resolved user). -/
theorem create_database_user_fst_entry (dryRun : Bool) (sess : Session)
    (database : String) (p : PermissionEntry) (eff : Effects) :
    (create_database_user dryRun sess database p.login (some (entryUser p)) eff).1 =
      (if userCheckRaises sess database p then
        Except.error (sess.checkErrMsg (userCheckSql database (entryUser p)))
       else Except.ok (userEnsured dryRun sess database p)) := by
  rw [create_database_user_fst]
  simp [cduResolvedUser, userCheckRaises, userEnsured]

theorem applyRoles_totalSuccess (dryRun : Bool) (sess : Session)
    (database user : String) (roles : List String) (st : RunState) :
    (applyRoles dryRun sess database user roles st).totalSuccess =
      st.totalSuccess + roles.countP (fun r => roleOk dryRun sess database user r) :=
  (applyRoles_spec dryRun sess database user roles st).1

theorem applyRoles_totalFailed (dryRun : Bool) (sess : Session)
    (database user : String) (roles : List String) (st : RunState) :
    (applyRoles dryRun sess database user roles st).totalFailed =
      st.totalFailed + roles.countP (fun r => !roleOk dryRun sess database user r) :=
  (applyRoles_spec dryRun sess database user roles st).2.1

theorem applyRoles_rgIssued (dryRun : Bool) (sess : Session)
    (database user : String) (roles : List String) (st : RunState) :
    rgCount (applyRoles dryRun sess database user roles st).eff.issued =
      rgCount st.eff.issued + roles.length :=
  (applyRoles_spec dryRun sess database user roles st).2.2

theorem applyGrants_totalSuccess (dryRun : Bool) (sess : Session)
    (database user : String) (grants : List GrantSpec) (st : RunState) :
    (applyGrants dryRun sess database user grants st).totalSuccess =
      st.totalSuccess + grants.countP (fun g => grantOk dryRun sess database user g) :=
  (applyGrants_spec dryRun sess database user grants st).1

theorem applyGrants_totalFailed (dryRun : Bool) (sess : Session)
    (database user : String) (grants : List GrantSpec) (st : RunState) :
    (applyGrants dryRun sess database user grants st).totalFailed =
      st.totalFailed + grants.countP (fun g => !grantOk dryRun sess database user g) :=
  (applyGrants_spec dryRun sess database user grants st).2.1

theorem applyGrants_rgIssued (dryRun : Bool) (sess : Session)
    (database user : String) (grants : List GrantSpec) (st : RunState) :
    rgCount (applyGrants dryRun sess database user grants st).eff.issued =
      rgCount st.eff.issued + grants.length :=
  (applyGrants_spec dryRun sess database user grants st).2.2

/-- What one permission entry does to the counters and to the
role/grant statement count, and when it raises. -/
theorem processEntry_spec (dryRun : Bool) (sess : Session) (database : String)
    (p : PermissionEntry) (st : RunState) :
    (exceptState (processEntry dryRun sess database p st)).totalSuccess =
      st.totalSuccess + entrySucc dryRun sess database p
  ∧ (exceptState (processEntry dryRun sess database p st)).totalFailed =
      st.totalFailed + entryFail dryRun sess database p
  ∧ rgCount (exceptState (processEntry dryRun sess database p st)).eff.issued =
      rgCount st.eff.issued + entryRG dryRun sess database p
  ∧ exceptAborts (processEntry dryRun sess database p st) =
      entryRaises dryRun sess database p := by
  by_cases h1 : loginCheckRaises sess p
  · refine ⟨?_, ?_, ?_, ?_⟩ <;>
      (simp [processEntry, create_login_fst_entry, h1, entrySucc, entryFail,
        entryRG, entryRaises, create_login_rgIssued]; try omega)
  · by_cases h2 : loginEnsured dryRun sess p
    · by_cases h3 : userCheckRaises sess database p
      · refine ⟨?_, ?_, ?_, ?_⟩ <;>
          (simp [processEntry, create_login_fst_entry, create_database_user_fst_entry,
            h1, h2, h3, entrySucc, entryFail, entryRG, entryRaises,
            create_login_rgIssued, create_database_user_rgIssued]; try omega)
      · by_cases h4 : userEnsured dryRun sess database p
        · refine ⟨?_, ?_, ?_, ?_⟩ <;>
            (simp [processEntry, create_login_fst_entry, create_database_user_fst_entry,
              h1, h2, h3, h4, entrySucc, entryFail, entryRG, entryRaises,
              applyRoles_totalSuccess, applyRoles_totalFailed, applyRoles_rgIssued,
              applyGrants_totalSuccess, applyGrants_totalFailed, applyGrants_rgIssued,
              create_login_rgIssued, create_database_user_rgIssued]; try omega)
        · refine ⟨?_, ?_, ?_, ?_⟩ <;>
            (simp [processEntry, create_login_fst_entry, create_database_user_fst_entry,
              h1, h2, h3, h4, entrySucc, entryFail, entryRG, entryRaises,
              create_login_rgIssued, create_database_user_rgIssued]; try omega)
    · refine ⟨?_, ?_, ?_, ?_⟩ <;>
        (simp [processEntry, create_login_fst_entry, h1, h2, entrySucc, entryFail,
          entryRG, entryRaises, create_login_rgIssued]; try omega)

/-- What a list of permission entries does to the counters and the
role/grant statement count, and when it raises. -/
theorem processEntries_spec (dryRun : Bool) (sess : Session) (database : String)
    (l : List PermissionEntry) (st : RunState) :
    (exceptState (processEntries dryRun sess database l st)).totalSuccess =
      st.totalSuccess + entriesSucc dryRun sess database l
  ∧ (exceptState (processEntries dryRun sess database l st)).totalFailed =
      st.totalFailed + entriesFail dryRun sess database l
  ∧ rgCount (exceptState (processEntries dryRun sess database l st)).eff.issued =
      rgCount st.eff.issued + entriesRG dryRun sess database l
  ∧ exceptAborts (processEntries dryRun sess database l st) =
      l.any (fun p => entryRaises dryRun sess database p) := by
  induction l generalizing st with
  | nil => simp [processEntries, entriesSucc, entriesFail, entriesRG]
  | cons p rest ih =>
    obtain ⟨e1, e2, e3, e4⟩ := processEntry_spec dryRun sess database p st
    cases hX : processEntry dryRun sess database p st with
    | error es =>
      obtain ⟨msg, st1⟩ := es
      rw [hX] at e1 e2 e3 e4
      have hp : entryRaises dryRun sess database p = true := by simpa using e4.symm
      simp only [exceptState_error] at e1 e2 e3
      simp only [processEntries, hX]
      refine ⟨?_, ?_, ?_, ?_⟩ <;>
        (simp [entriesSucc, entriesFail, entriesRG, entrySucc, entryFail, entryRG,
          hp, e1, e2, e3]; try omega)
    | ok st1 =>
      rw [hX] at e1 e2 e3 e4
      have hp : entryRaises dryRun sess database p = false := by simpa using e4.symm
      simp only [exceptState_ok] at e1 e2 e3
      simp only [processEntries, hX]
      obtain ⟨i1, i2, i3, i4⟩ := ih st1
      refine ⟨?_, ?_, ?_, ?_⟩ <;>
        (simp [entriesSucc, entriesFail, entriesRG, hp, e1, e2, e3, i1, i2, i3, i4];
          try omega)

/-- What one database does: its log line, then its entries. -/
theorem processDatabase_spec (dryRun : Bool) (sess : Session)
    (db : DatabaseSpec) (st : RunState) :
    (exceptState (processDatabase dryRun sess db st)).totalSuccess =
      st.totalSuccess + entriesSucc dryRun sess db.name db.permissions
  ∧ (exceptState (processDatabase dryRun sess db st)).totalFailed =
      st.totalFailed + entriesFail dryRun sess db.name db.permissions
  ∧ rgCount (exceptState (processDatabase dryRun sess db st)).eff.issued =
      rgCount st.eff.issued + entriesRG dryRun sess db.name db.permissions
  ∧ exceptAborts (processDatabase dryRun sess db st) = dbRaises dryRun sess db := by
  obtain ⟨h1, h2, h3, h4⟩ := processEntries_spec dryRun sess db.name db.permissions
    (st.log .info ("\n  Database: " ++ db.name))
  simp [RunState.log, Effects.log] at h1 h2 h3
  exact ⟨by simpa [processDatabase] using h1, by simpa [processDatabase] using h2,
    by simpa [processDatabase] using h3, by simpa [processDatabase, dbRaises] using h4⟩

/-- What a list of databases does. -/
theorem processDatabases_spec (dryRun : Bool) (sess : Session)
    (l : List DatabaseSpec) (st : RunState) :
    (exceptState (processDatabases dryRun sess l st)).totalSuccess =
      st.totalSuccess + databasesSucc dryRun sess l
  ∧ (exceptState (processDatabases dryRun sess l st)).totalFailed =
      st.totalFailed + databasesFail dryRun sess l
  ∧ rgCount (exceptState (processDatabases dryRun sess l st)).eff.issued =
      rgCount st.eff.issued + databasesRG dryRun sess l
  ∧ exceptAborts (processDatabases dryRun sess l st) =
      l.any (fun db => dbRaises dryRun sess db) := by
  induction l generalizing st with
  | nil => simp [processDatabases, databasesSucc, databasesFail, databasesRG]
  | cons db rest ih =>
    obtain ⟨e1, e2, e3, e4⟩ := processDatabase_spec dryRun sess db st
    cases hX : processDatabase dryRun sess db st with
    | error es =>
      obtain ⟨msg, st1⟩ := es
      rw [hX] at e1 e2 e3 e4
      have hp : dbRaises dryRun sess db = true := by simpa using e4.symm
      simp only [exceptState_error] at e1 e2 e3
      simp only [processDatabases, hX]
      refine ⟨?_, ?_, ?_, ?_⟩ <;>
        (simp [databasesSucc, databasesFail, databasesRG, hp, e1, e2, e3]; try omega)
    | ok st1 =>
      rw [hX] at e1 e2 e3 e4
      have hp : dbRaises dryRun sess db = false := by simpa using e4.symm
      simp only [exceptState_ok] at e1 e2 e3
      simp only [processDatabases, hX]
      obtain ⟨i1, i2, i3, i4⟩ := ih st1
      refine ⟨?_, ?_, ?_, ?_⟩ <;>
        (simp [databasesSucc, databasesFail, databasesRG, hp, e1, e2, e3,
          i1, i2, i3, i4]; try omega)

/-- What one server does, including the per-server `except` handler. -/
theorem processServer_spec (dryRun : Bool) (env : Env) (sv : ServerSpec)
    (st : RunState) :
    (processServer dryRun env sv st).totalSuccess =
      st.totalSuccess + serverSucc dryRun env sv
  ∧ (processServer dryRun env sv st).totalFailed =
      st.totalFailed + serverFail dryRun env sv
  ∧ rgCount (processServer dryRun env sv st).eff.issued =
      rgCount st.eff.issued + serverRG dryRun env sv := by
  by_cases hc : env.connectOk sv.name
  · obtain ⟨d1, d2, d3, d4⟩ := processDatabases_spec dryRun (env.session sv.name)
      sv.databases
      ((st.log .info ("\n--- Processing Server: " ++ sv.name ++ " ---")).log .info
        ("✓ Connected to " ++ sv.name))
    cases hX : processDatabases dryRun (env.session sv.name) sv.databases
        ((st.log .info ("\n--- Processing Server: " ++ sv.name ++ " ---")).log .info
          ("✓ Connected to " ++ sv.name)) with
    | ok st1 =>
      rw [hX] at d1 d2 d3 d4
      have hab : sv.databases.any (fun db => dbRaises dryRun (env.session sv.name) db)
          = false := by simpa using d4.symm
      simp only [exceptState_ok] at d1 d2 d3
      simp only [RunState.log_totalSuccess, RunState.log_totalFailed,
        RunState.log_eff_issued] at d1 d2 d3
      refine ⟨?_, ?_, ?_⟩ <;>
        (simp [processServer, hc, hX, serverSucc, serverFail, serverRG,
          hab, d1, d2, d3]; try omega)
    | error es =>
      obtain ⟨msg, st1⟩ := es
      rw [hX] at d1 d2 d3 d4
      have hab : sv.databases.any (fun db => dbRaises dryRun (env.session sv.name) db)
          = true := by simpa using d4.symm
      simp only [exceptState_error] at d1 d2 d3
      simp only [RunState.log_totalSuccess, RunState.log_totalFailed,
        RunState.log_eff_issued] at d1 d2 d3
      refine ⟨?_, ?_, ?_⟩ <;>
        (simp [processServer, hc, hX, serverSucc, serverFail, serverRG,
          hab, d1, d2, d3]; try omega)
  · refine ⟨?_, ?_, ?_⟩ <;>
      (simp [processServer, hc, serverSucc, serverFail, serverRG]; try omega)

/-- What the server loop does. -/
theorem applyServers_spec (dryRun : Bool) (env : Env)
    (l : List ServerSpec) (st : RunState) :
    (applyServers dryRun env l st).totalSuccess =
      st.totalSuccess + runSucc dryRun env l
  ∧ (applyServers dryRun env l st).totalFailed =
      st.totalFailed + runFail dryRun env l
  ∧ rgCount (applyServers dryRun env l st).eff.issued =
      rgCount st.eff.issued + runRG dryRun env l := by
  induction l generalizing st with
  | nil => simp [applyServers, runSucc, runFail, runRG]
  | cons sv rest ih =>
    obtain ⟨e1, e2, e3⟩ := processServer_spec dryRun env sv st
    obtain ⟨i1, i2, i3⟩ := ih (processServer dryRun env sv st)
    refine ⟨?_, ?_, ?_⟩ <;>
      (simp [applyServers, runSucc, runFail, runRG, e1, e2, e3, i1, i2, i3]; try omega)

/-- What a whole run does to the counters and the role/grant
statement count. -/
theorem apply_permissions_spec (dryRun : Bool) (env : Env) (cfg : Config) :
    (apply_permissions dryRun env cfg).totalSuccess = runSucc dryRun env cfg.servers
  ∧ (apply_permissions dryRun env cfg).totalFailed = runFail dryRun env cfg.servers
  ∧ rgCount (apply_permissions dryRun env cfg).eff.issued =
      runRG dryRun env cfg.servers := by
  obtain ⟨e1, e2, e3⟩ := applyServers_spec dryRun env cfg.servers
    (((((RunState.log ⟨0, 0, Effects.empty⟩ .info eqLine).log .info
        "SQL Server Permissions Manager").log .info eqLine).log .info
        ("Mode: " ++ (if dryRun then "DRY-RUN (Preview Only)"
          else "LIVE (Applying Changes)"))).log .info "")
  simp only [RunState.log_totalSuccess, RunState.log_totalFailed,
    RunState.log_eff_issued] at e1 e2 e3
  cases dryRun with
  | false =>
    simp at e1 e2 e3
    refine ⟨?_, ?_, ?_⟩ <;>
      simp [apply_permissions, e1, e2, e3]
  | true =>
    simp at e1 e2 e3
    refine ⟨?_, ?_, ?_⟩ <;>
      simp [apply_permissions, e1, e2, e3]

/-! ## Success plus failure equals attempts (plus handler hits) -/

theorem countP_bool_split {α : Type} (p q : α → Bool) (hq : ∀ a, q a = !p a)
    (l : List α) : l.countP p + l.countP q = l.length := by
  induction l with
  | nil => simp
  | cons a t ih => by_cases h : p a <;> (simp [List.countP_cons, hq, h]; omega)

theorem entry_bridge (dryRun : Bool) (sess : Session) (database : String)
    (p : PermissionEntry) :
    entrySucc dryRun sess database p + entryFail dryRun sess database p =
      entryRG dryRun sess database p := by
  by_cases h1 : entryRaises dryRun sess database p
  · simp [entrySucc, entryFail, entryRG, h1]
  · by_cases h2 : loginEnsured dryRun sess p && userEnsured dryRun sess database p
    · have hr := countP_bool_split
        (fun r => roleOk dryRun sess database (entryUser p) r)
        (fun r => !roleOk dryRun sess database (entryUser p) r)
        (fun r => rfl) p.roles
      have hg := countP_bool_split
        (fun g => grantOk dryRun sess database (entryUser p) g)
        (fun g => !grantOk dryRun sess database (entryUser p) g)
        (fun g => rfl) p.grants
      simp [entrySucc, entryFail, entryRG, h1, h2]
      omega
    · simp [entrySucc, entryFail, entryRG, h1, h2]

theorem entries_bridge (dryRun : Bool) (sess : Session) (database : String)
    (l : List PermissionEntry) :
    entriesSucc dryRun sess database l + entriesFail dryRun sess database l =
      entriesRG dryRun sess database l := by
  induction l with
  | nil => simp [entriesSucc, entriesFail, entriesRG]
  | cons p rest ih =>
    have hb := entry_bridge dryRun sess database p
    by_cases h : entryRaises dryRun sess database p
    · simp [entriesSucc, entriesFail, entriesRG, h]
    · simp [entriesSucc, entriesFail, entriesRG, h]
      omega

theorem databases_bridge (dryRun : Bool) (sess : Session) (l : List DatabaseSpec) :
    databasesSucc dryRun sess l + databasesFail dryRun sess l =
      databasesRG dryRun sess l := by
  induction l with
  | nil => simp [databasesSucc, databasesFail, databasesRG]
  | cons db rest ih =>
    have hb := entries_bridge dryRun sess db.name db.permissions
    by_cases h : dbRaises dryRun sess db
    · simp [databasesSucc, databasesFail, databasesRG, h]
      omega
    · simp [databasesSucc, databasesFail, databasesRG, h]
      omega

theorem server_bridge (dryRun : Bool) (env : Env) (sv : ServerSpec) :
    serverSucc dryRun env sv + serverFail dryRun env sv =
      serverRG dryRun env sv +
        (if serverAborts dryRun env sv then 1 else 0) := by
  by_cases hc : env.connectOk sv.name
  · have hb := databases_bridge dryRun (env.session sv.name) sv.databases
    by_cases ha : sv.databases.any (fun db => dbRaises dryRun (env.session sv.name) db)
    · simp [serverSucc, serverFail, serverRG, serverAborts, hc, ha]
      omega
    · simp [serverSucc, serverFail, serverRG, serverAborts, hc, ha]
      omega
  · simp [serverSucc, serverFail, serverRG, serverAborts, hc]

theorem run_bridge (dryRun : Bool) (env : Env) (servers : List ServerSpec) :
    runSucc dryRun env servers + runFail dryRun env servers =
      runRG dryRun env servers + runAborts dryRun env servers := by
  induction servers with
  | nil => simp [runSucc, runFail, runRG, runAborts]
  | cons sv rest ih =>
    have hb := server_bridge dryRun env sv
    simp only [runSucc, runFail, runRG, runAborts, List.map_cons, List.sum_cons,
      List.countP_cons] at ih ⊢
    by_cases h : serverAborts dryRun env sv
    · simp [h] at hb ⊢
      omega
    · simp [h] at hb ⊢
      omega

/-! ## In dry-run mode only existence checks reach the session -/

/-- Every statement in a trace is an existence check. -/
def onlyChecks (l : List (StmtKind × String)) : Prop :=
  ∀ q ∈ l, q.1 = StmtKind.checkLogin ∨ q.1 = StmtKind.checkUser

theorem onlyChecks_nil : onlyChecks [] := by intro q hq; cases hq

theorem onlyChecks_append {a b : List (StmtKind × String)}
    (ha : onlyChecks a) (hb : onlyChecks b) : onlyChecks (a ++ b) := by
  intro q hq
  rcases List.mem_append.1 hq with h | h
  · exact ha q h
  · exact hb q h

theorem execute_sql_executed_dry (sess : Session) (k : StmtKind)
    (sql descr : String) (eff : Effects) :
    (execute_sql true sess k sql descr eff).2.executed = eff.executed := by
  simpa using execute_sql_executed true sess k sql descr eff

theorem create_login_executed_dry (sess : Session) (login t : String)
    (eff : Effects) :
    (create_login true sess login t eff).2.executed =
      eff.executed ++ [(StmtKind.checkLogin, loginCheckSql login)] := by
  by_cases h1 : sess.checkFault (loginCheckSql login) <;>
    by_cases h2 : login ∈ sess.serverPrincipals <;>
    by_cases h3 : strToLower t = "windows" <;>
    simp [create_login, execute_sql_executed_dry, h1, h2, h3]

theorem create_database_user_executed_dry (sess : Session)
    (database login : String) (userArg : Option String) (eff : Effects) :
    (create_database_user true sess database login userArg eff).2.executed =
      eff.executed ++
        [(StmtKind.checkUser, userCheckSql database (cduResolvedUser userArg login))] := by
  by_cases h1 : sess.checkFault (userCheckSql database (cduResolvedUser userArg login)) <;>
    by_cases h2 : cduResolvedUser userArg login ∈ sess.dbPrincipals database <;>
    simp [create_database_user, execute_sql_executed_dry, h1, h2]

theorem applyRoles_executed_dry (sess : Session) (database user : String)
    (roles : List String) (st : RunState) :
    (applyRoles true sess database user roles st).eff.executed =
      st.eff.executed := by
  induction roles generalizing st with
  | nil => simp [applyRoles]
  | cons role rest ih =>
    simp only [applyRoles]
    rw [ih]
    split <;> simp [add_role_member, execute_sql_executed_dry]

theorem applyGrants_executed_dry (sess : Session) (database user : String)
    (grants : List GrantSpec) (st : RunState) :
    (applyGrants true sess database user grants st).eff.executed =
      st.eff.executed := by
  induction grants generalizing st with
  | nil => simp [applyGrants]
  | cons g rest ih =>
    simp only [applyGrants]
    rw [ih]
    split <;> simp [grant_permission, execute_sql_executed_dry]

/-- In dry-run mode an entry adds exactly its login check, or its login
check followed by its user check, to the statements reaching the
session. -/
theorem processEntry_executed_dry (sess : Session) (database : String)
    (p : PermissionEntry) (st : RunState) :
    (exceptState (processEntry true sess database p st)).eff.executed =
      st.eff.executed ++ [(StmtKind.checkLogin, loginCheckSql p.login)]
  ∨ (exceptState (processEntry true sess database p st)).eff.executed =
      st.eff.executed ++ [(StmtKind.checkLogin, loginCheckSql p.login),
        (StmtKind.checkUser, userCheckSql database (entryUser p))] := by
  by_cases h1 : loginCheckRaises sess p
  · left
    simp [processEntry, create_login_fst_entry, h1, create_login_executed_dry]
  · by_cases h2 : loginEnsured true sess p
    · right
      by_cases h3 : userCheckRaises sess database p
      · simp [processEntry, create_login_fst_entry, create_database_user_fst_entry,
          h1, h2, h3, create_login_executed_dry, create_database_user_executed_dry,
          cduResolvedUser]
      · by_cases h4 : userEnsured true sess database p <;>
          simp [processEntry, create_login_fst_entry, create_database_user_fst_entry,
            h1, h2, h3, h4, create_login_executed_dry, create_database_user_executed_dry,
            applyRoles_executed_dry, applyGrants_executed_dry, cduResolvedUser]
    · left
      simp [processEntry, create_login_fst_entry, h1, h2, create_login_executed_dry]

theorem processEntry_onlyChecks (sess : Session) (database : String)
    (p : PermissionEntry) (st : RunState)
    (h : onlyChecks st.eff.executed) :
    onlyChecks (exceptState (processEntry true sess database p st)).eff.executed := by
  rcases processEntry_executed_dry sess database p st with he | he <;>
    (rw [he]; refine onlyChecks_append h ?_; intro q hq; simp at hq) <;>
    rcases hq with h | h <;> simp [h]

theorem processEntries_onlyChecks (sess : Session) (database : String)
    (l : List PermissionEntry) (st : RunState)
    (h : onlyChecks st.eff.executed) :
    onlyChecks (exceptState (processEntries true sess database l st)).eff.executed := by
  induction l generalizing st with
  | nil => simpa [processEntries]
  | cons p rest ih =>
    have hp := processEntry_onlyChecks sess database p st h
    cases hX : processEntry true sess database p st with
    | error es =>
      obtain ⟨msg, st1⟩ := es
      rw [hX] at hp
      simpa [processEntries, hX] using hp
    | ok st1 =>
      rw [hX] at hp
      simp only [exceptState_ok] at hp
      simpa [processEntries, hX] using ih st1 hp

theorem processDatabases_onlyChecks (sess : Session)
    (l : List DatabaseSpec) (st : RunState)
    (h : onlyChecks st.eff.executed) :
    onlyChecks (exceptState (processDatabases true sess l st)).eff.executed := by
  induction l generalizing st with
  | nil => simpa [processDatabases]
  | cons db rest ih =>
    have hdb : onlyChecks
        (exceptState (processDatabase true sess db st)).eff.executed := by
      have := processEntries_onlyChecks sess db.name db.permissions
        (st.log .info ("\n  Database: " ++ db.name)) (by simpa using h)
      simpa [processDatabase] using this
    cases hX : processDatabase true sess db st with
    | error es =>
      obtain ⟨msg, st1⟩ := es
      rw [hX] at hdb
      simpa [processDatabases, hX] using hdb
    | ok st1 =>
      rw [hX] at hdb
      simp only [exceptState_ok] at hdb
      simpa [processDatabases, hX] using ih st1 hdb

theorem processServer_onlyChecks (env : Env) (sv : ServerSpec) (st : RunState)
    (h : onlyChecks st.eff.executed) :
    onlyChecks (processServer true env sv st).eff.executed := by
  by_cases hc : env.connectOk sv.name
  · have hdbs : onlyChecks
        (exceptState (processDatabases true (env.session sv.name) sv.databases
          ((st.log .info ("\n--- Processing Server: " ++ sv.name ++ " ---")).log .info
            ("✓ Connected to " ++ sv.name)))).eff.executed :=
      processDatabases_onlyChecks (env.session sv.name) sv.databases _ (by simpa using h)
    cases hX : processDatabases true (env.session sv.name) sv.databases
        ((st.log .info ("\n--- Processing Server: " ++ sv.name ++ " ---")).log .info
          ("✓ Connected to " ++ sv.name)) with
    | ok st1 =>
      rw [hX] at hdbs
      simpa [processServer, hc, hX] using hdbs
    | error es =>
      obtain ⟨msg, st1⟩ := es
      rw [hX] at hdbs
      simpa [processServer, hc, hX] using hdbs
  · simpa [processServer, hc] using h

theorem applyServers_onlyChecks (env : Env) (l : List ServerSpec) (st : RunState)
    (h : onlyChecks st.eff.executed) :
    onlyChecks (applyServers true env l st).eff.executed := by
  induction l generalizing st with
  | nil => simpa [applyServers]
  | cons sv rest ih =>
    simpa [applyServers] using
      ih (processServer true env sv st) (processServer_onlyChecks env sv st h)

theorem apply_permissions_onlyChecks (env : Env) (cfg : Config) :
    onlyChecks (apply_permissions true env cfg).eff.executed := by
  have h := applyServers_onlyChecks env cfg.servers
    (((((RunState.log ⟨0, 0, Effects.empty⟩ .info eqLine).log .info
        "SQL Server Permissions Manager").log .info eqLine).log .info
        "Mode: DRY-RUN (Preview Only)").log .info "")
    (by simpa using onlyChecks_nil)
  simpa [apply_permissions] using h

/-! ## Direct computation lemmas for the exception paths -/

theorem create_login_raise (dryRun : Bool) (sess : Session) (login t : String)
    (eff : Effects) (h : sess.checkFault (loginCheckSql login) = true) :
    create_login dryRun sess login t eff =
      (Except.error (sess.checkErrMsg (loginCheckSql login)),
        eff.exec .checkLogin (loginCheckSql login)) := by
  simp [create_login, h]

theorem create_login_exists (dryRun : Bool) (sess : Session) (login t : String)
    (eff : Effects) (h1 : sess.checkFault (loginCheckSql login) = false)
    (h2 : login ∈ sess.serverPrincipals) :
    create_login dryRun sess login t eff =
      (Except.ok true,
        (eff.exec .checkLogin (loginCheckSql login)).log .debug
          ("Login already exists: " ++ login)) := by
  simp [create_login, h1, h2]

theorem create_database_user_raise (dryRun : Bool) (sess : Session)
    (database login : String) (userArg : Option String) (eff : Effects)
    (h : sess.checkFault (userCheckSql database (cduResolvedUser userArg login)) = true) :
    create_database_user dryRun sess database login userArg eff =
      (Except.error (sess.checkErrMsg (userCheckSql database (cduResolvedUser userArg login))),
        eff.exec .checkUser (userCheckSql database (cduResolvedUser userArg login))) := by
  simp [create_database_user, h]

theorem create_database_user_exists (dryRun : Bool) (sess : Session)
    (database login : String) (userArg : Option String) (eff : Effects)
    (h1 : sess.checkFault (userCheckSql database (cduResolvedUser userArg login)) = false)
    (h2 : cduResolvedUser userArg login ∈ sess.dbPrincipals database) :
    create_database_user dryRun sess database login userArg eff =
      (Except.ok true,
        (eff.exec .checkUser (userCheckSql database (cduResolvedUser userArg login))).log .debug
          ("User already exists in " ++ database ++ ": " ++ cduResolvedUser userArg login)) := by
  simp [create_database_user, h1, h2]

theorem processEntry_loginRaise (dryRun : Bool) (sess : Session) (database : String)
    (p : PermissionEntry) (st : RunState)
    (h : sess.checkFault (loginCheckSql p.login) = true) :
    processEntry dryRun sess database p st =
      Except.error (sess.checkErrMsg (loginCheckSql p.login),
        { st with eff := st.eff.exec .checkLogin (loginCheckSql p.login) }) := by
  simp [processEntry, create_login_raise, h]

theorem processEntry_userRaise (dryRun : Bool) (sess : Session) (database : String)
    (p : PermissionEntry) (st : RunState)
    (h1 : sess.checkFault (loginCheckSql p.login) = false)
    (h2 : p.login ∈ sess.serverPrincipals)
    (h3 : sess.checkFault (userCheckSql database (entryUser p)) = true) :
    processEntry dryRun sess database p st =
      Except.error (sess.checkErrMsg (userCheckSql database (entryUser p)),
        { st with eff :=
          (((st.eff.exec .checkLogin (loginCheckSql p.login)).log .debug
            ("Login already exists: " ++ p.login)).exec .checkUser
            (userCheckSql database (entryUser p))) }) := by
  have hcl := create_login_exists dryRun sess p.login (p.login_type.getD "windows")
    st.eff h1 h2
  have hcu := create_database_user_raise dryRun sess database p.login
    (some (entryUser p))
    ((st.eff.exec .checkLogin (loginCheckSql p.login)).log .debug
      ("Login already exists: " ++ p.login))
    (by simpa [cduResolvedUser] using h3)
  simp [processEntry, hcl, hcu, cduResolvedUser]

/-- A `pyodbc.Error` raised by the login existence check of the first
entry of the first database lands in the per-server handler: one extra
failure, no audit record, nothing issued through the executor, only the
check itself reaching the session, and all remaining entries and
databases of the server skipped. Holds in dry-run mode too. -/
theorem processServer_loginCheckRaise (dryRun : Bool) (env : Env)
    (svname dbname : String) (p : PermissionEntry)
    (rest : List PermissionEntry) (moreDbs : List DatabaseSpec) (st : RunState)
    (hc : env.connectOk svname = true)
    (hf : (env.session svname).checkFault (loginCheckSql p.login) = true) :
    (processServer dryRun env ⟨svname, ⟨dbname, p :: rest⟩ :: moreDbs⟩ st).totalSuccess
      = st.totalSuccess
  ∧ (processServer dryRun env ⟨svname, ⟨dbname, p :: rest⟩ :: moreDbs⟩ st).totalFailed
      = st.totalFailed + 1
  ∧ (processServer dryRun env ⟨svname, ⟨dbname, p :: rest⟩ :: moreDbs⟩ st).eff.audit
      = st.eff.audit
  ∧ (processServer dryRun env ⟨svname, ⟨dbname, p :: rest⟩ :: moreDbs⟩ st).eff.issued
      = st.eff.issued
  ∧ (processServer dryRun env ⟨svname, ⟨dbname, p :: rest⟩ :: moreDbs⟩ st).eff.executed
      = st.eff.executed ++ [(StmtKind.checkLogin, loginCheckSql p.login)] := by
  refine ⟨?_, ?_, ?_, ?_, ?_⟩ <;>
    simp [processServer, hc, processDatabases, processDatabase, processEntries,
      processEntry_loginRaise, hf, RunState.log, Effects.log, Effects.exec]

/-- Same for the database-user existence check (login already exists).
Two checks reach the session, nothing else happens except the handler
failure. -/
theorem processServer_userCheckRaise (dryRun : Bool) (env : Env)
    (svname dbname : String) (p : PermissionEntry)
    (rest : List PermissionEntry) (moreDbs : List DatabaseSpec) (st : RunState)
    (hc : env.connectOk svname = true)
    (h1 : (env.session svname).checkFault (loginCheckSql p.login) = false)
    (h2 : p.login ∈ (env.session svname).serverPrincipals)
    (h3 : (env.session svname).checkFault (userCheckSql dbname (entryUser p)) = true) :
    (processServer dryRun env ⟨svname, ⟨dbname, p :: rest⟩ :: moreDbs⟩ st).totalSuccess
      = st.totalSuccess
  ∧ (processServer dryRun env ⟨svname, ⟨dbname, p :: rest⟩ :: moreDbs⟩ st).totalFailed
      = st.totalFailed + 1
  ∧ (processServer dryRun env ⟨svname, ⟨dbname, p :: rest⟩ :: moreDbs⟩ st).eff.audit
      = st.eff.audit
  ∧ (processServer dryRun env ⟨svname, ⟨dbname, p :: rest⟩ :: moreDbs⟩ st).eff.issued
      = st.eff.issued
  ∧ (processServer dryRun env ⟨svname, ⟨dbname, p :: rest⟩ :: moreDbs⟩ st).eff.executed
      = st.eff.executed ++ [(StmtKind.checkLogin, loginCheckSql p.login),
          (StmtKind.checkUser, userCheckSql dbname (entryUser p))] := by
  refine ⟨?_, ?_, ?_, ?_, ?_⟩ <;>
    simp [processServer, hc, processDatabases, processDatabase, processEntries,
      processEntry_userRaise, h1, h2, h3, RunState.log, Effects.log, Effects.exec]

/-! ## Concrete fixtures -/

/-- A session with no principals and no faults. -/
def sessNone : Session :=
  ⟨[], fun _ => [], fun _ => false, fun _ => "execerr", fun _ => false, fun _ => "checkerr"⟩

/-- A session where login `svc` and user `svc` already exist, no faults. -/
def sessExisting : Session :=
  ⟨["svc"], fun _ => ["svc"], fun _ => false, fun _ => "execerr",
   fun _ => false, fun _ => "checkerr"⟩

/-- Principals exist but every mutating statement fails. -/
def sessExecFail : Session :=
  ⟨["svc"], fun _ => ["svc"], fun _ => true, fun _ => "execerr",
   fun _ => false, fun _ => "checkerr"⟩

/-- Every existence check raises. -/
def sessCheckFail : Session :=
  ⟨[], fun _ => [], fun _ => false, fun _ => "execerr", fun _ => true, fun _ => "checkerr"⟩

/-- Login `svc` exists and its check works; every other check raises. -/
def sessUserCheckFail : Session :=
  ⟨["svc"], fun _ => [], fun _ => false, fun _ => "execerr",
   fun s => !(s == loginCheckSql "svc"), fun _ => "checkerr"⟩

/-- Every connection succeeds and yields the given session. -/
def envOk (sess : Session) : Env := ⟨fun _ => true, fun _ => "connerr", fun _ => sess⟩

/-- Every connection fails. -/
def envDown : Env := ⟨fun _ => false, fun _ => "connerr", fun _ => sessNone⟩

/-- Only the server named `B` accepts connections. -/
def envOnlyB : Env := ⟨fun n => n == "B", fun _ => "connerr", fun _ => sessNone⟩

/-- A windows entry with one role and one object grant. -/
def permBasic : PermissionEntry :=
  ⟨"svc", none, none, ["db_datareader"], [⟨"EXECUTE", some "dbo.uspGetData"⟩]⟩

/-- An entry of login kind sql. -/
def permSql : PermissionEntry := ⟨"sqluser", none, some "sql", ["db_datareader"], []⟩

/-- One server, one database, one entry. -/
def cfgBasic : Config := ⟨[⟨"S1", [⟨"D1", [permBasic]⟩]⟩]⟩

def serverA : ServerSpec := ⟨"A", [⟨"D1", [permBasic]⟩]⟩

def serverB : ServerSpec := ⟨"B", [⟨"D1", [permBasic]⟩]⟩

/-- The empty run state. -/
def st0 : RunState := ⟨0, 0, Effects.empty⟩

/-! ## The claims -/

/-- C1: the claim says every `_execute_sql` call appends exactly one
AuditRecord, in dry-run mode as well, with status simulated there. The
code contradicts this: the dry-run branch returns before any append and
no simulated status exists anywhere. Amended claim, proved here: in
live mode exactly one AuditRecord is appended per call; in dry-run mode
the audit collection is unchanged. -/
theorem execute_sql_audit_per_call (dryRun : Bool) (sess : Session) (k : StmtKind)
    (sql descr : String) (eff : Effects) :
    (execute_sql dryRun sess k sql descr eff).2.audit.length =
      eff.audit.length + (if dryRun then 0 else 1)
  ∧ (execute_sql true sess k sql descr eff).2.audit = eff.audit := by
  constructor
  · rw [execute_sql_audit]
    by_cases hd : dryRun <;> by_cases hf : sess.execFault sql <;> simp [hd, hf]
  · simp [execute_sql_audit]

/-- C1 counterexample: a concrete dry-run call appends no audit record,
where the claim demands exactly one. -/
theorem execute_sql_dry_appends_none :
    ¬ ((execute_sql true sessNone .grantStmt "GRANT SELECT TO [svc]"
        "Grant SELECT" Effects.empty).2.audit.length =
       Effects.empty.audit.length + 1) := by decide

/-- C2: the claim says the process exit code is non-zero when a
role-membership or grant operation failed. The code contradicts this:
`main` calls `apply_permissions` and never inspects the counters, so
every completed run exits 0. Amended claim, proved here: the exit code
is 0 regardless of the run outcome. -/
theorem main_exit_code_always_zero (applyFlag : Bool) (env : Env) (cfg : Config) :
    mainExitCode applyFlag env cfg = 0 := rfl

/-- C2 counterexample: a live run in which both the role statement and
the grant statement fail still exits 0. -/
theorem failed_run_exits_zero :
    1 ≤ (apply_permissions false (envOk sessExecFail) cfgBasic).totalFailed
  ∧ mainExitCode true (envOk sessExecFail) cfgBasic = 0 :=
  ⟨by decide, rfl⟩

/-- C3: the claim says total_success + total_failed equals the number
of role-membership and grant attempts made. False as stated: the
per-server `except` handler also increments `total_failed` (connection
failures and raised existence checks), which are not role/grant
attempts. Amended claim, proved here: the sum equals the number of
role/grant statements issued through the executor plus one per server
whose processing ended in the handler. -/
theorem counters_balance (dryRun : Bool) (env : Env) (cfg : Config) :
    (apply_permissions dryRun env cfg).totalSuccess +
      (apply_permissions dryRun env cfg).totalFailed =
    rgCount (apply_permissions dryRun env cfg).eff.issued +
      runAborts dryRun env cfg.servers := by
  obtain ⟨h1, h2, h3⟩ := apply_permissions_spec dryRun env cfg
  rw [h1, h2, h3]
  exact run_bridge dryRun env cfg.servers

/-- C3 counterexample: one server whose connection fails gives counter
sum 1 with zero role/grant attempts made. -/
theorem connection_failure_miscount :
    ¬ ((apply_permissions true envDown cfgBasic).totalSuccess +
        (apply_permissions true envDown cfgBasic).totalFailed =
       rgCount (apply_permissions true envDown cfgBasic).eff.issued) := by decide

/-- C4: in dry-run mode no mutating statement ever reaches a session
during `apply_permissions`; everything that reaches a session is one of
the two existence checks. -/
theorem dry_run_executes_only_checks (env : Env) (cfg : Config)
    (q : StmtKind × String)
    (hq : q ∈ (apply_permissions true env cfg).eff.executed) :
    q.1 = StmtKind.checkLogin ∨ q.1 = StmtKind.checkUser :=
  apply_permissions_onlyChecks env cfg q hq

/-- C4 witness: a concrete dry-run trace is non-empty and its first
statement is a login existence check. -/
theorem dry_run_executes_only_checks_witness :
    ((StmtKind.checkLogin, loginCheckSql "svc") ∈
      (apply_permissions true (envOk sessNone) cfgBasic).eff.executed)
  ∧ ((StmtKind.checkLogin, loginCheckSql "svc").1 = StmtKind.checkLogin ∨
     (StmtKind.checkLogin, loginCheckSql "svc").1 = StmtKind.checkUser) :=
  ⟨by decide,
   dry_run_executes_only_checks (envOk sessNone) cfgBasic
     (StmtKind.checkLogin, loginCheckSql "svc") (by decide)⟩

/-- C5: a failed connection to server A is recorded as exactly one
extra failure and does not disturb server B: with A first and B second,
the counters and the role/grant statement count are those of a run over
B alone, plus one failure for A. -/
theorem connection_failure_isolated (dryRun : Bool) (env : Env)
    (a b : ServerSpec) (h : env.connectOk a.name = false) :
    (apply_permissions dryRun env ⟨[a, b]⟩).totalSuccess =
      (apply_permissions dryRun env ⟨[b]⟩).totalSuccess
  ∧ (apply_permissions dryRun env ⟨[a, b]⟩).totalFailed =
      1 + (apply_permissions dryRun env ⟨[b]⟩).totalFailed
  ∧ rgCount (apply_permissions dryRun env ⟨[a, b]⟩).eff.issued =
      rgCount (apply_permissions dryRun env ⟨[b]⟩).eff.issued := by
  obtain ⟨a1, a2, a3⟩ := apply_permissions_spec dryRun env ⟨[a, b]⟩
  obtain ⟨b1, b2, b3⟩ := apply_permissions_spec dryRun env ⟨[b]⟩
  rw [a1, a2, a3, b1, b2, b3]
  refine ⟨?_, ?_, ?_⟩ <;>
    (simp [runSucc, runFail, runRG, serverSucc, serverFail, serverRG, h]; try omega)

/-- C5 witness: concrete two-server run where A is down and B is up. -/
theorem connection_failure_isolated_witness :
    (envOnlyB.connectOk serverA.name = false)
  ∧ ((apply_permissions true envOnlyB ⟨[serverA, serverB]⟩).totalSuccess =
      (apply_permissions true envOnlyB ⟨[serverB]⟩).totalSuccess
    ∧ (apply_permissions true envOnlyB ⟨[serverA, serverB]⟩).totalFailed =
      1 + (apply_permissions true envOnlyB ⟨[serverB]⟩).totalFailed
    ∧ rgCount (apply_permissions true envOnlyB ⟨[serverA, serverB]⟩).eff.issued =
      rgCount (apply_permissions true envOnlyB ⟨[serverB]⟩).eff.issued) :=
  ⟨by decide, connection_failure_isolated true envOnlyB serverA serverB (by decide)⟩

/-- C6: if `_create_login` returns false for an entry, or it returns
true and `_create_database_user` returns false, then processing the
entry raises nothing, issues no role/grant statement, and leaves both
counters unchanged. -/
theorem skip_propagation (dryRun : Bool) (sess : Session) (database : String)
    (p : PermissionEntry) (st : RunState)
    (h : (create_login dryRun sess p.login (p.login_type.getD "windows") st.eff).1 =
          Except.ok false
       ∨ ((create_login dryRun sess p.login (p.login_type.getD "windows") st.eff).1 =
            Except.ok true
          ∧ (create_database_user dryRun sess database p.login (some (entryUser p))
              (create_login dryRun sess p.login (p.login_type.getD "windows") st.eff).2).1 =
            Except.ok false)) :
    exceptAborts (processEntry dryRun sess database p st) = false
  ∧ (exceptState (processEntry dryRun sess database p st)).totalSuccess = st.totalSuccess
  ∧ (exceptState (processEntry dryRun sess database p st)).totalFailed = st.totalFailed
  ∧ rgCount (exceptState (processEntry dryRun sess database p st)).eff.issued =
      rgCount st.eff.issued := by
  obtain ⟨s1, s2, s3, s4⟩ := processEntry_spec dryRun sess database p st
  rcases h with h | ⟨hl, hu⟩
  · rw [create_login_fst_entry] at h
    by_cases h1 : loginCheckRaises sess p
    · simp [h1] at h
    · simp [h1] at h
      have hraises : entryRaises dryRun sess database p = false := by
        simp [entryRaises, h1, h]
      refine ⟨by rw [s4, hraises], ?_, ?_, ?_⟩ <;>
        simp [s1, s2, s3, entrySucc, entryFail, entryRG, hraises, h]
  · rw [create_login_fst_entry] at hl
    by_cases h1 : loginCheckRaises sess p
    · simp [h1] at hl
    · simp [h1] at hl
      rw [create_database_user_fst_entry] at hu
      by_cases h3 : userCheckRaises sess database p
      · simp [h3] at hu
      · simp [h3] at hu
        have hraises : entryRaises dryRun sess database p = false := by
          simp [entryRaises, h1, h3]
        refine ⟨by rw [s4, hraises], ?_, ?_, ?_⟩ <;>
          simp [s1, s2, s3, entrySucc, entryFail, entryRG, hraises, hu]

/-- C6 witness: an sql-kind login that does not exist is skipped and
contributes nothing to the counters. -/
theorem skip_propagation_witness :
    ((create_login true sessNone permSql.login (permSql.login_type.getD "windows")
        st0.eff).1 = Except.ok false)
  ∧ (exceptAborts (processEntry true sessNone "D1" permSql st0) = false
    ∧ (exceptState (processEntry true sessNone "D1" permSql st0)).totalSuccess =
        st0.totalSuccess
    ∧ (exceptState (processEntry true sessNone "D1" permSql st0)).totalFailed =
        st0.totalFailed
    ∧ rgCount (exceptState (processEntry true sessNone "D1" permSql st0)).eff.issued =
        rgCount st0.eff.issued) :=
  ⟨rfl, skip_propagation true sessNone "D1" permSql st0 (Or.inl rfl)⟩

/-- C7: the derived database-user name is the part of the login after
the last backslash, the same derivation at both call sites: line 213 in
`_create_database_user` and line 323 in `apply_permissions`. -/
theorem user_name_derivation :
    deriveUser "DOM\x5csvc" = "svc"
  ∧ deriveUser "svc" = "svc"
  ∧ ∀ (login : String),
      cduResolvedUser none login = entryUser ⟨login, none, none, [], []⟩ := by
  refine ⟨by decide, by decide, fun login => ?_⟩
  simp [cduResolvedUser, entryUser]

/-- C8: when the server principal, respectively the database principal,
already exists, `_create_login`, respectively `_create_database_user`,
returns true on two consecutive calls and the two calls together issue
no statement through the executor. -/
theorem ensure_idempotent_when_exists (dryRun : Bool) (sess : Session)
    (login t database : String) (userArg : Option String) (eff : Effects)
    (hA1 : sess.checkFault (loginCheckSql login) = false)
    (hA2 : login ∈ sess.serverPrincipals)
    (hB1 : sess.checkFault (userCheckSql database (cduResolvedUser userArg login)) = false)
    (hB2 : cduResolvedUser userArg login ∈ sess.dbPrincipals database) :
    (create_login dryRun sess login t eff).1 = Except.ok true
  ∧ (create_login dryRun sess login t (create_login dryRun sess login t eff).2).1 =
      Except.ok true
  ∧ (create_login dryRun sess login t (create_login dryRun sess login t eff).2).2.issued =
      eff.issued
  ∧ (create_database_user dryRun sess database login userArg eff).1 = Except.ok true
  ∧ (create_database_user dryRun sess database login userArg
      (create_database_user dryRun sess database login userArg eff).2).1 = Except.ok true
  ∧ (create_database_user dryRun sess database login userArg
      (create_database_user dryRun sess database login userArg eff).2).2.issued =
      eff.issued := by
  refine ⟨?_, ?_, ?_, ?_, ?_, ?_⟩ <;>
    simp [create_login_exists, create_database_user_exists, hA1, hA2, hB1, hB2]

/-- C8 witness: concrete pre-existing principals. -/
theorem ensure_idempotent_when_exists_witness :
    (sessExisting.checkFault (loginCheckSql "svc") = false
    ∧ "svc" ∈ sessExisting.serverPrincipals
    ∧ sessExisting.checkFault (userCheckSql "D1" (cduResolvedUser none "svc")) = false
    ∧ cduResolvedUser none "svc" ∈ sessExisting.dbPrincipals "D1")
  ∧ ((create_login true sessExisting "svc" "windows" Effects.empty).1 = Except.ok true
    ∧ (create_login true sessExisting "svc" "windows"
        (create_login true sessExisting "svc" "windows" Effects.empty).2).1 =
        Except.ok true) :=
  ⟨⟨by decide, by decide, by decide, by decide⟩,
   by
    have h := ensure_idempotent_when_exists true sessExisting "svc" "windows" "D1"
      none Effects.empty (by decide) (by decide) (by decide) (by decide)
    exact ⟨h.1, h.2.1⟩⟩

/-- C9: for an sql-kind login that does not already exist,
`_create_login` returns false without raising, records a warning-level
log line, and issues no statement through the executor; the audit
collection is untouched. -/
theorem sql_login_skip (dryRun : Bool) (sess : Session) (login : String) (eff : Effects)
    (h1 : sess.checkFault (loginCheckSql login) = false)
    (h2 : login ∉ sess.serverPrincipals) :
    (create_login dryRun sess login "sql" eff).1 = Except.ok false
  ∧ (create_login dryRun sess login "sql" eff).2.logs =
      eff.logs ++ [⟨LogLevel.warning, "SQL login creation not implemented: " ++ login⟩]
  ∧ (create_login dryRun sess login "sql" eff).2.issued = eff.issued
  ∧ (create_login dryRun sess login "sql" eff).2.audit = eff.audit := by
  have h3 : ¬ (strToLower "sql" = "windows") := by decide
  refine ⟨?_, ?_, ?_, ?_⟩ <;>
    simp [create_login, h1, h2, h3, Effects.exec, Effects.log]

/-- C9 witness: concrete sql-kind login on an empty server. -/
theorem sql_login_skip_witness :
    (sessNone.checkFault (loginCheckSql "sqluser") = false
    ∧ "sqluser" ∉ sessNone.serverPrincipals)
  ∧ ((create_login true sessNone "sqluser" "sql" Effects.empty).1 = Except.ok false
    ∧ (create_login true sessNone "sqluser" "sql" Effects.empty).2.logs =
        Effects.empty.logs ++
          [⟨LogLevel.warning, "SQL login creation not implemented: " ++ "sqluser"⟩]) :=
  ⟨⟨by decide, by decide⟩,
   by
    have h := sql_login_skip true sessNone "sqluser" Effects.empty (by decide) (by decide)
    exact ⟨h.1, h.2.1⟩⟩

/-- C10: the existence checks run directly on the session (also in
dry-run mode, where the check is the only thing reaching the session)
and a `pyodbc.Error` raised by either check escalates past the entry
level to the per-server handler: one extra failure, no audit record,
nothing issued through the executor, and the rest of the server
skipped. Stated for a raising login check (first half) and a raising
database-user check after the login was found (second half). -/
theorem check_error_escalates (dryRun : Bool) (envA envB : Env)
    (svA dbA svB dbB : String) (pA pB : PermissionEntry)
    (restA restB : List PermissionEntry) (moreA moreB : List DatabaseSpec)
    (stA stB : RunState)
    (hcA : envA.connectOk svA = true)
    (hfA : (envA.session svA).checkFault (loginCheckSql pA.login) = true)
    (hcB : envB.connectOk svB = true)
    (hB1 : (envB.session svB).checkFault (loginCheckSql pB.login) = false)
    (hB2 : pB.login ∈ (envB.session svB).serverPrincipals)
    (hB3 : (envB.session svB).checkFault (userCheckSql dbB (entryUser pB)) = true) :
    ((processServer dryRun envA ⟨svA, ⟨dbA, pA :: restA⟩ :: moreA⟩ stA).totalSuccess
      = stA.totalSuccess
    ∧ (processServer dryRun envA ⟨svA, ⟨dbA, pA :: restA⟩ :: moreA⟩ stA).totalFailed
      = stA.totalFailed + 1
    ∧ (processServer dryRun envA ⟨svA, ⟨dbA, pA :: restA⟩ :: moreA⟩ stA).eff.audit
      = stA.eff.audit
    ∧ (processServer dryRun envA ⟨svA, ⟨dbA, pA :: restA⟩ :: moreA⟩ stA).eff.issued
      = stA.eff.issued
    ∧ (processServer dryRun envA ⟨svA, ⟨dbA, pA :: restA⟩ :: moreA⟩ stA).eff.executed
      = stA.eff.executed ++ [(StmtKind.checkLogin, loginCheckSql pA.login)])
  ∧ ((processServer dryRun envB ⟨svB, ⟨dbB, pB :: restB⟩ :: moreB⟩ stB).totalSuccess
      = stB.totalSuccess
    ∧ (processServer dryRun envB ⟨svB, ⟨dbB, pB :: restB⟩ :: moreB⟩ stB).totalFailed
      = stB.totalFailed + 1
    ∧ (processServer dryRun envB ⟨svB, ⟨dbB, pB :: restB⟩ :: moreB⟩ stB).eff.audit
      = stB.eff.audit
    ∧ (processServer dryRun envB ⟨svB, ⟨dbB, pB :: restB⟩ :: moreB⟩ stB).eff.issued
      = stB.eff.issued
    ∧ (processServer dryRun envB ⟨svB, ⟨dbB, pB :: restB⟩ :: moreB⟩ stB).eff.executed
      = stB.eff.executed ++ [(StmtKind.checkLogin, loginCheckSql pB.login),
          (StmtKind.checkUser, userCheckSql dbB (entryUser pB))]) :=
  ⟨processServer_loginCheckRaise dryRun envA svA dbA pA restA moreA stA hcA hfA,
   processServer_userCheckRaise dryRun envB svB dbB pB restB moreB stB hcB hB1 hB2 hB3⟩

/-- C10 witness: concrete dry-run servers whose first entry raises at
the login check, respectively at the user check. -/
theorem check_error_escalates_witness :
    ((envOk sessCheckFail).connectOk "S1" = true
    ∧ ((envOk sessCheckFail).session "S1").checkFault (loginCheckSql permBasic.login) = true
    ∧ (envOk sessUserCheckFail).connectOk "S1" = true
    ∧ ((envOk sessUserCheckFail).session "S1").checkFault (loginCheckSql permBasic.login) = false
    ∧ permBasic.login ∈ ((envOk sessUserCheckFail).session "S1").serverPrincipals
    ∧ ((envOk sessUserCheckFail).session "S1").checkFault
        (userCheckSql "D1" (entryUser permBasic)) = true)
  ∧ ((processServer true (envOk sessCheckFail) ⟨"S1", [⟨"D1", [permBasic]⟩]⟩ st0).totalFailed
      = st0.totalFailed + 1
    ∧ (processServer true (envOk sessUserCheckFail) ⟨"S1", [⟨"D1", [permBasic]⟩]⟩ st0).eff.executed
      = st0.eff.executed ++ [(StmtKind.checkLogin, loginCheckSql permBasic.login),
          (StmtKind.checkUser, userCheckSql "D1" (entryUser permBasic))]) :=
  ⟨⟨by decide, by decide, by decide, by decide, by decide, by decide⟩,
   by
    have h := check_error_escalates true (envOk sessCheckFail) (envOk sessUserCheckFail)
      "S1" "D1" "S1" "D1" permBasic permBasic [] [] [] [] st0 st0
      (by decide) (by decide) (by decide) (by decide) (by decide) (by decide)
    exact ⟨h.1.2.1, h.2.2.2.2.2⟩⟩

end SqlPermissions
